import Mathlib

/-!
Shallow embedding of the miles-wheels build/test orchestration scripts
(`build_wheels.py` and `test_wheels.py`) and proofs about their
step-selection, failure-propagation, upload, install and test logic.

External effects (subprocess invocations, environment mutation, directory
creation/removal, file copies) are recorded as explicit actions; the exit
code of each external command is supplied by an environment record, so the
orchestration logic is an executable Lean function of that environment.
-/

namespace MilesWheels

/-- An external command line (`subprocess.run` argument list). -/
abbrev Cmd := List String

/-- `sys.executable`, the Python interpreter the scripts run commands with. -/
def py : String := "python3"

/-- Process-level outcome of a command of either script: normal return
(process exit 0), `typer.Exit(code)`, or a failed `assert`. -/
inductive ExitStatus
  | ok
  | exit (code : Nat)
  | assertionError
deriving DecidableEq

/-! ## build_wheels.py : constants -/

def WHEEL_DIR : String := "/tmp/wheels"

def REPO : String := "yueming-yuan/miles-wheels"

/-- The `Arch` enum of `build_wheels.py`. -/
inductive Arch
  | x86
  | aarch64
deriving DecidableEq

def archValue : Arch → String
  | .x86 => "x86"
  | .aarch64 => "aarch64"

/-! ## build_wheels.py : observable actions and environment -/

/-- One observable side effect of `build_wheels.py`: an external command
spawn, an `os.environ` write, `os.makedirs`, `shutil.rmtree`,
`shutil.copy2`, or the start of a registered build step (`fn(cuda)` being
invoked by the `build` loop). -/
inductive Action
  | cmd (c : Cmd)
  | setEnvVar (key value : String)
  | makedirs (path : String)
  | rmtree (path : String)
  | copyFile (src dst : String)
  | stepStart (name : String)
deriving DecidableEq

/-- The external world as `build_wheels.py` observes it: the exit code each
spawned command would return, whether `TORCH_CUDA_ARCH_LIST` is already set,
whether the two clone target directories already exist, and the directory
listing of the hopper `dist/` directory after its build. -/
structure BuildEnv where
  cmdExit : Cmd → Nat
  torchArchPreset : Bool
  hopperRepoExists : Bool
  milesRepoExists : Bool
  hopperDistFiles : List String

/-! ## build_wheels.py : _setup_env -/

def cudaMajor (cuda : String) : String := cuda.take 2

def cudaMinor (cuda : String) : String := cuda.drop 2

def torchArchList (arch : Arch) : String :=
  if arch = Arch.x86 then "8.0;8.6;8.9;9.0;10.0;10.3" else "9.0;10.0;10.3"

/-- Actions of `_setup_env`: `os.environ.setdefault("TORCH_CUDA_ARCH_LIST", ...)`
writes only when the variable is absent; `CUDA_VERSION` is always written. -/
def setupEnvActions (env : BuildEnv) (cuda : String) (arch : Arch) : List Action :=
  (if env.torchArchPreset then []
   else [Action.setEnvVar "TORCH_CUDA_ARCH_LIST" (torchArchList arch)]) ++
  [Action.setEnvVar "CUDA_VERSION" (cudaMajor cuda ++ "." ++ cudaMinor cuda)]

/-! ## build_wheels.py : the five build steps -/

def flashAttnWheelCmd : Cmd :=
  [py, "-m", "pip", "wheel", "flash-attn==2.7.4.post1",
   "-v", "--no-build-isolation", "--no-deps", "-w", WHEEL_DIR]

def hopperRepoDir : String := "/tmp/flash-attention"

def hopperCloneCmd : Cmd :=
  ["git", "clone", "https://github.com/Dao-AILab/flash-attention.git", hopperRepoDir]

def hopperCheckoutCmd : Cmd :=
  ["git", "checkout", "fbf24f67cf7f6442c5cfb2c1057f4bfc57e72d89"]

def hopperSubmoduleCmd : Cmd :=
  ["git", "submodule", "update", "--init"]

def hopperBdistCmd : Cmd :=
  [py, "setup.py", "bdist_wheel"]

def apexWheelCmd : Cmd :=
  [py, "-m", "pip", "wheel", "-v", "--no-build-isolation", "--no-deps",
   "--config-settings", "--build-option=--cpp_ext --cuda_ext --parallel 8",
   "git+https://github.com/NVIDIA/apex.git@10417aceddd7d5d05d7cbf7b0fc2daad1105f8b4",
   "-w", WHEEL_DIR]

def milesRepoDir : String := "/tmp/miles"

def int4CloneCmd : Cmd :=
  ["git", "clone", "https://github.com/radixark/miles.git", milesRepoDir]

def int4WheelCmd : Cmd :=
  [py, "-m", "pip", "wheel", ".", "-v", "--no-build-isolation", "--no-deps",
   "-w", WHEEL_DIR]

/-- `_build_transformer_engine`: the extras depend on a Python string
comparison `cuda_major >= "13"`. -/
def teExtras (cuda : String) : String :=
  if "13" ≤ cudaMajor cuda then "core_cu13,pytorch" else "pytorch"

def teWheelCmd (cuda : String) : Cmd :=
  [py, "-m", "pip", "wheel", "transformer_engine[" ++ teExtras cuda ++ "]==2.10.0",
   "-v", "--no-build-isolation", "--no-deps", "-w", WHEEL_DIR]

def flashAttnActions : List Action := [Action.cmd flashAttnWheelCmd]

/-- `_build_flash_attn_hopper`: conditional pre-clean, clone, checkout,
submodule init, source build, copy of every `.whl` in `hopper/dist`, and the
final `shutil.rmtree` (reached only if every command before it succeeded). -/
def hopperActions (env : BuildEnv) : List Action :=
  (if env.hopperRepoExists then [Action.rmtree hopperRepoDir] else []) ++
  [Action.cmd hopperCloneCmd, Action.cmd hopperCheckoutCmd,
   Action.cmd hopperSubmoduleCmd, Action.cmd hopperBdistCmd] ++
  ((env.hopperDistFiles.filter (fun f => f.endsWith ".whl")).map
    (fun f => Action.copyFile (hopperRepoDir ++ "/hopper/dist/" ++ f) WHEEL_DIR)) ++
  [Action.rmtree hopperRepoDir]

def apexActions : List Action := [Action.cmd apexWheelCmd]

def int4Actions (env : BuildEnv) : List Action :=
  (if env.milesRepoExists then [Action.rmtree milesRepoDir] else []) ++
  [Action.cmd int4CloneCmd, Action.cmd int4WheelCmd]

def teActions (cuda : String) : List Action := [Action.cmd (teWheelCmd cuda)]

/-- The action list of one registered build step, by registry key. -/
def stepActions (env : BuildEnv) (cuda : String) : String → List Action
  | "flash-attn" => flashAttnActions
  | "flash-attn-hopper" => hopperActions env
  | "apex" => apexActions
  | "int4_qat" => int4Actions env
  | "te" => teActions cuda
  | _ => []

/-! ## step registry and `--only` selection -/

/-- Keys of the `STEPS` dict of `build_wheels.py`, in insertion order. -/
def STEPS_keys : List String := ["flash-attn", "flash-attn-hopper", "apex", "int4_qat", "te"]

/-- Python's `str.lower()`, modelled as lowercasing every character
(identical to `String.toLower`, stated over the character list so that it
is kernel-reducible). -/
def strLower (s : String) : String := ⟨s.data.map Char.toLower⟩

/-- `selected = \x7bs.lower() for s in (only or [])\x7d`. -/
def selectedOf (only : List String) : List String := only.map strLower

/-- A step named `name` runs unless the filter set is non-empty and does not
contain it (`if selected and name not in selected: continue`). -/
def runsStep (selected : List String) (name : String) : Bool :=
  selected.isEmpty || selected.contains name

/-- The `for name, fn in STEPS.items()` loop skeleton: the registry keys
that are not skipped, in registry order. -/
def runStepsLoop (selected : List String) : List String → List String
  | [] => []
  | name :: rest =>
      if runsStep selected name then name :: runStepsLoop selected rest
      else runStepsLoop selected rest

def lsCmd : Cmd := ["ls", "-lh", WHEEL_DIR]

/-- The full action program of the `build` command once its assertion has
passed: `_setup_env`, `os.makedirs(WHEEL_DIR)`, the selected steps in
registry order (each preceded by a `stepStart` marker), and the final
`ls -lh` listing. -/
def buildActions (env : BuildEnv) (cuda : String) (arch : Arch) (only : List String) :
    List Action :=
  setupEnvActions env cuda arch ++ [Action.makedirs WHEEL_DIR] ++
  ((runStepsLoop (selectedOf only) STEPS_keys).map
    (fun name => Action.stepStart name :: stepActions env cuda name)).flatten ++
  [Action.cmd lsCmd]

/-! ## executing an action program -/

/-- Effect of a completed action on the existence of the hopper clone
directory `/tmp/flash-attention`: its `rmtree` removes it, a successful
`git clone` into it creates it; everything else leaves it unchanged. -/
def fsAfterAction (repoEx : Bool) : Action → Bool
  | Action.rmtree p => if p = hopperRepoDir then false else repoEx
  | Action.cmd c => if c = hopperCloneCmd then true else repoEx
  | _ => repoEx

/-- Run an action list in order. `run()` raises `typer.Exit(returncode)` on
the first command whose exit code is non-zero, so execution stops there;
the returned trace is the list of actions actually performed, the `Bool`
tracks whether `/tmp/flash-attention` exists afterwards. -/
def execActions (env : BuildEnv) (repoEx : Bool) : List Action → List Action × Bool × ExitStatus
  | [] => ([], repoEx, ExitStatus.ok)
  | Action.cmd c :: rest =>
      if env.cmdExit c = 0 then
        let r := execActions env (fsAfterAction repoEx (Action.cmd c)) rest
        (Action.cmd c :: r.1, r.2)
      else ([Action.cmd c], repoEx, ExitStatus.exit (env.cmdExit c))
  | a :: rest =>
      let r := execActions env (fsAfterAction repoEx a) rest
      (a :: r.1, r.2)

/-- The `build` command: `assert cuda in ("129", "130")` fires before any
other statement; on success the action program runs. -/
def buildRun (env : BuildEnv) (cuda : String) (arch : Arch) (only : List String) :
    List Action × Bool × ExitStatus :=
  if cuda = "129" ∨ cuda = "130" then
    execActions env env.hopperRepoExists (buildActions env cuda arch only)
  else ([], env.hopperRepoExists, ExitStatus.assertionError)

/-- The `flash-attn-hopper` build step executed on its own. -/
def hopperStepRun (env : BuildEnv) : List Action × Bool × ExitStatus :=
  execActions env env.hopperRepoExists (hopperActions env)

/-- The step names started in a trace, in order. -/
def stepStartsOf : List Action → List String
  | [] => []
  | Action.stepStart n :: rest => n :: stepStartsOf rest
  | _ :: rest => stepStartsOf rest

/-! ## build_wheels.py : the `upload` command -/

/-- The world as `upload` observes it: the sorted `glob` of
`/tmp/wheels/*.whl`, the exit code of each command run through `run()`,
and the exit code of the `gh release delete` subprocess — which the code
spawns with `capture_output=True` and whose result it discards. -/
structure UploadEnv where
  wheels : List String
  cmdExit : Cmd → Nat
  deleteExit : Nat

/-- `os.path.basename`. -/
def basename (p : String) : String := (p.splitOn "/").getLastD ""

/-- `os.path.splitext(s)[0]`: everything before the last dot (the whole
string when there is no dot). -/
def splitextRoot (s : String) : String :=
  if (s.splitOn ".").length ≤ 1 then s
  else String.intercalate "." (s.splitOn ".").dropLast

/-- `os.path.splitext(os.path.basename(w))[0].split("-")[0]`. -/
def wheelDisplayName (w : String) : String :=
  ((splitextRoot (basename w)).splitOn "-").headD ""

def archStr (arch : Arch) : String :=
  if arch = Arch.x86 then "x86_64" else archValue arch

def uploadTag (cuda : String) (arch : Arch) : String :=
  "cu" ++ cuda ++ "-" ++ archStr arch

def uploadTitle (cuda : String) (arch : Arch) : String :=
  "CUDA " ++ cudaMajor cuda ++ "." ++ cudaMinor cuda ++ " + " ++ archStr arch

def uploadBody (wheels : List String) : String :=
  "Pre-built wheels: " ++ String.intercalate ", " (wheels.map wheelDisplayName)

def ghDeleteCmd (tag : String) : Cmd :=
  ["gh", "release", "delete", tag, "--repo", REPO, "--yes", "--cleanup-tag"]

def ghCreateCmd (tag title body : String) (wheels : List String) : Cmd :=
  ["gh", "release", "create", tag, "--repo", REPO,
   "--title", title, "--notes", body] ++ wheels

/-- The `gh release create` command of an upload run. -/
def uploadCreateCmd (env : UploadEnv) (cuda : String) (arch : Arch) : Cmd :=
  ghCreateCmd (uploadTag cuda arch) (uploadTitle cuda arch) (uploadBody env.wheels) env.wheels

/-- The `upload` command: assertion on `cuda`, then: empty wheel list →
`typer.Exit(1)` with no command spawned; otherwise the delete subprocess
runs with its result ignored, and `run(gh release create ...)` decides the
outcome. The trace lists the spawned `gh` commands in order. -/
def uploadRun (env : UploadEnv) (cuda : String) (arch : Arch) : List Cmd × ExitStatus :=
  if cuda = "129" ∨ cuda = "130" then
    if env.wheels.isEmpty then ([], ExitStatus.exit 1)
    else
      let dc := ghDeleteCmd (uploadTag cuda arch)
      let cc := uploadCreateCmd env cuda arch
      if env.cmdExit cc = 0 then ([dc, cc], ExitStatus.ok)
      else ([dc, cc], ExitStatus.exit (env.cmdExit cc))
  else ([], ExitStatus.assertionError)

/-! ## test_wheels.py : environment, errors, `_find_wheel`, `run` -/

/-- `STEP_NAMES` of `test_wheels.py` (used in every `--only` help text). -/
def TW_STEP_NAMES : String := "flash-attn, flash-attn-hopper, apex, int4_qat, te"

/-- The world as the install harness observes it: glob results (keyed by
the joined `wheel_dir/pattern` argument), exit codes for commands run via
`run()` or `subprocess.check_output`, and the site-packages path that
`check_output` would print. -/
structure InstallEnv where
  glob : String → List String
  cmdExit : Cmd → Nat
  sitePackages : String

/-- Python exceptions the install steps can raise: `FileNotFoundError` and
`RuntimeError` from `_find_wheel`, `CalledProcessError` from
`subprocess.check_output`, and `typer.Exit` from `run()`. -/
inductive PyError
  | fileNotFound
  | runtimeError
  | calledProcess
  | typerExit (code : Nat)
deriving DecidableEq

def joinPath (a b : String) : String := a ++ "/" ++ b

/-- `_find_wheel`: no match raises `FileNotFoundError`, more than one match
raises `RuntimeError`, exactly one match is returned. -/
def findWheel (env : InstallEnv) (wheelDir pat : String) : Except PyError String :=
  match env.glob (joinPath wheelDir pat) with
  | [] => Except.error PyError.fileNotFound
  | [w] => Except.ok w
  | _ => Except.error PyError.runtimeError

/-- `run()` of `test_wheels.py`: raises `typer.Exit(returncode)` on a
non-zero exit code. -/
def runTW (env : InstallEnv) (c : Cmd) : Except PyError Unit :=
  if env.cmdExit c = 0 then Except.ok () else Except.error (PyError.typerExit (env.cmdExit c))

/-! ## test_wheels.py : the five install steps -/

def pipInstallCmd (whl : String) : Cmd := [py, "-m", "pip", "install", whl]

def installFlashAttn (env : InstallEnv) (wd : String) : Except PyError Unit := do
  let whl ← findWheel env wd "flash_attn-*.whl"
  runTW env (pipInstallCmd whl)

def sitePackagesCmd : Cmd :=
  [py, "-c", "import site; print(site.getsitepackages()[0])"]

/-- `subprocess.check_output` of the site-packages query: raises
`CalledProcessError` on a non-zero exit code. -/
def checkOutput (env : InstallEnv) : Except PyError String :=
  if env.cmdExit sitePackagesCmd = 0 then Except.ok env.sitePackages
  else Except.error PyError.calledProcess

def curlCmd (dst : String) : Cmd :=
  ["curl", "-fSL",
   "https://raw.githubusercontent.com/Dao-AILab/flash-attention/fbf24f67cf7f6442c5cfb2c1057f4bfc57e72d89/hopper/flash_attn_interface.py",
   "-o", dst]

def installFlashAttnHopper (env : InstallEnv) (wd : String) : Except PyError Unit := do
  let whl ← findWheel env wd "flash_attn_3-*.whl"
  runTW env (pipInstallCmd whl)
  let pythonPath ← checkOutput env
  runTW env (curlCmd (joinPath (joinPath pythonPath "flash_attn_3") "flash_attn_interface.py"))

def installApex (env : InstallEnv) (wd : String) : Except PyError Unit := do
  let whl ← findWheel env wd "apex-*.whl"
  runTW env (pipInstallCmd whl)

def installInt4Qat (env : InstallEnv) (wd : String) : Except PyError Unit := do
  let whl ← findWheel env wd "fake_int4_quant_cuda-*.whl"
  runTW env (pipInstallCmd whl)

/-- `_install_te` installs every matching wheel in glob order; an empty
glob result is a successful no-op (no `_find_wheel`, so no
`FileNotFoundError`). -/
def installTeLoop (env : InstallEnv) : List String → Except PyError Unit
  | [] => Except.ok ()
  | whl :: rest => do
      runTW env (pipInstallCmd whl)
      installTeLoop env rest

def installTe (env : InstallEnv) (wd : String) : Except PyError Unit :=
  installTeLoop env (env.glob (joinPath wd "transformer_engine*.whl"))

/-- One install step by registry key (`INSTALL_STEPS`). -/
def installStep (env : InstallEnv) (wd : String) : String → Except PyError Unit
  | "flash-attn" => installFlashAttn env wd
  | "flash-attn-hopper" => installFlashAttnHopper env wd
  | "apex" => installApex env wd
  | "int4_qat" => installInt4Qat env wd
  | "te" => installTe env wd
  | _ => Except.ok ()

/-- Keys of the `INSTALL_STEPS` dict of `test_wheels.py`, in insertion order. -/
def INSTALL_STEPS_keys : List String :=
  ["flash-attn", "flash-attn-hopper", "apex", "int4_qat", "te"]

/-! ## test_wheels.py : the `install` command -/

/-- Process-level outcome of the `install` command: normal completion
(exit 0), `typer.Exit(code)`, or an uncaught Python exception (the
interpreter then exits 1 with a traceback). -/
inductive InstallStatus
  | ok
  | exit (code : Nat)
  | uncaught (e : PyError)
deriving DecidableEq

def installExitCode : InstallStatus → Nat
  | InstallStatus.ok => 0
  | InstallStatus.exit c => c
  | InstallStatus.uncaught _ => 1

/-- The `install` loop: skipped steps are not attempted; an attempted
step's `FileNotFoundError` is caught and turned into a warning, any other
exception propagates and ends the loop. Returns the attempted step names,
the warned step names, and the final status. -/
def installLoop (env : InstallEnv) (wd : String) (selected : List String) :
    List String → List String × List String × InstallStatus
  | [] => ([], [], InstallStatus.ok)
  | name :: rest =>
      if runsStep selected name then
        match installStep env wd name with
        | Except.ok _ =>
            let r := installLoop env wd selected rest
            (name :: r.1, r.2)
        | Except.error PyError.fileNotFound =>
            let r := installLoop env wd selected rest
            (name :: r.1, name :: r.2.1, r.2.2)
        | Except.error (PyError.typerExit c) => ([name], [], InstallStatus.exit c)
        | Except.error e => ([name], [], InstallStatus.uncaught e)
      else installLoop env wd selected rest

/-- The `install` command. -/
def installRun (env : InstallEnv) (wd : String) (only : List String) :
    List String × List String × InstallStatus :=
  installLoop env wd (selectedOf only) INSTALL_STEPS_keys

/-! ## test_wheels.py : the `test` command -/

/-- Keys of the `TEST_STEPS` dict of `test_wheels.py`, in insertion order
(note: no entry for `te`). -/
def TEST_STEPS_keys : List String :=
  ["flash-attn", "flash-attn-hopper", "apex", "int4_qat"]

/-- The world as the test harness observes it: the exit code of the
`python test_wheels.py --run-step name` subprocess for each step name. -/
structure TestEnv where
  stepExit : String → Nat

/-- The aggregation state of the `test` command: names of tests whose
subprocess was spawned, and the passed / failed / skipped lists. -/
structure TestResult where
  spawned : List String
  passed : List String
  failed : List String
  skipped : List String
deriving DecidableEq

/-- The `for name in TEST_STEPS` loop: a skipped name goes straight to
`skipped`; otherwise one subprocess is spawned for the name and its exit
code decides `passed` or `failed`; the loop always continues either way. -/
def testLoop (env : TestEnv) (selected : List String) : List String → TestResult
  | [] => ⟨[], [], [], []⟩
  | name :: rest =>
      let r := testLoop env selected rest
      if runsStep selected name then
        if env.stepExit name = 0 then
          ⟨name :: r.spawned, name :: r.passed, r.failed, r.skipped⟩
        else
          ⟨name :: r.spawned, r.passed, name :: r.failed, r.skipped⟩
      else ⟨r.spawned, r.passed, r.failed, name :: r.skipped⟩

/-- The `test` command: run the loop, then `raise typer.Exit(1)` exactly
when the failed list is non-empty (exit code 0 otherwise). -/
def testRun (env : TestEnv) (only : List String) : TestResult × Nat :=
  let r := testLoop env (selectedOf only) TEST_STEPS_keys
  (r, if r.failed.isEmpty then 0 else 1)

/-! ## Boolean classifiers for install step outcomes -/

/-- The step completed without an exception. -/
def stepOk : Except PyError Unit → Bool
  | Except.ok _ => true
  | _ => false

/-- The step raised `FileNotFoundError` (the only exception `install`
catches). -/
def stepNotFound : Except PyError Unit → Bool
  | Except.error PyError.fileNotFound => true
  | _ => false

/-! ## Concrete environments used by witnesses and counterexamples -/

/-- A build world where every external command succeeds,
`TORCH_CUDA_ARCH_LIST` is unset and no clone directory pre-exists. -/
def envZero : BuildEnv := ⟨fun _ => 0, false, false, false, []⟩

/-- A build world where the flash-attn `pip wheel` command exits 2 and
everything else succeeds. -/
def envFlashFail : BuildEnv :=
  ⟨fun c => if c = flashAttnWheelCmd then 2 else 0, true, false, false, []⟩

/-- A build world where the hopper `git checkout` exits 1 and everything
else succeeds. -/
def envHopperFail : BuildEnv :=
  ⟨fun c => if c = hopperCheckoutCmd then 1 else 0, false, false, false, []⟩

/-- An upload world with an empty wheel directory. -/
def uenvEmpty : UploadEnv := ⟨[], fun _ => 0, 0⟩

/-- An upload world with one wheel where every `gh` invocation exits 3. -/
def uenvCreateFail : UploadEnv :=
  ⟨["/tmp/wheels/apex-0.1-cp310.whl"], fun c => if c.headD "" = "gh" then 3 else 0, 9⟩

/-- An install world where every glob has exactly one match and every
command succeeds. -/
def ienvAllOk : InstallEnv := ⟨fun p => [p], fun _ => 0, "/usr/lib/python3/site-packages"⟩

/-- An install world where only the apex wheel exists. -/
def ienvWarn : InstallEnv :=
  ⟨fun p => if p = "/tmp/wheels/apex-*.whl" then ["/tmp/wheels/apex-0.1-cp310.whl"] else [],
   fun _ => 0, "/usr/lib/python3/site-packages"⟩

/-- An install world where two wheels match the flash-attn glob. -/
def ienvMulti : InstallEnv :=
  ⟨fun p => if p = "/tmp/wheels/flash_attn-*.whl"
     then ["/tmp/wheels/flash_attn-2.7.4.post1-cp310.whl", "/tmp/wheels/flash_attn-2.7.5-cp310.whl"]
     else [],
   fun _ => 0, "/usr/lib/python3/site-packages"⟩

/-- A test world where the apex test subprocess exits 137 and all others
exit 0. -/
def tenvCrash : TestEnv := ⟨fun n => if n = "apex" then 137 else 0⟩

/-! ## Helper lemmas -/

/-- The step loop is the registry filtered by the selection predicate. -/
theorem runStepsLoop_eq_filter (selected : List String) (keys : List String) :
    runStepsLoop selected keys = keys.filter (runsStep selected) := by
  induction keys with
  | nil => rfl
  | cons n rest ih =>
      by_cases h : runsStep selected n = true <;>
        simp [runStepsLoop, List.filter_cons, h, ih]

/-- When every command succeeds, an action program runs to completion: the
trace is the whole program and the status is `ok`. -/
theorem execActions_allOk (env : BuildEnv) (acts : List Action)
    (h : ∀ c, Action.cmd c ∈ acts → env.cmdExit c = 0) (b : Bool) :
    execActions env b acts = (acts, acts.foldl fsAfterAction b, ExitStatus.ok) := by
  induction acts generalizing b with
  | nil => rfl
  | cons a rest ih =>
      have hrest : ∀ c, Action.cmd c ∈ rest → env.cmdExit c = 0 :=
        fun c hc => h c (List.mem_cons_of_mem _ hc)
      cases a with
      | cmd c =>
          have hc : env.cmdExit c = 0 := h c (List.mem_cons_self _ _)
          simp [execActions, hc, ih hrest]
      | setEnvVar k v => simp [execActions, ih hrest]
      | makedirs p => simp [execActions, ih hrest]
      | rmtree p => simp [execActions, ih hrest]
      | copyFile s d => simp [execActions, ih hrest]
      | stepStart n => simp [execActions, ih hrest]

/-- When every command before `c` succeeds and `c` fails, execution stops
at `c`: the trace is the successful actions followed by `c` alone, and the
status carries the exit code of `c`. -/
theorem execActions_failAt (env : BuildEnv) (pre post : List Action) (c : Cmd)
    (hpre : ∀ c2, Action.cmd c2 ∈ pre → env.cmdExit c2 = 0)
    (hfail : env.cmdExit c ≠ 0) (b : Bool) :
    execActions env b (pre ++ Action.cmd c :: post) =
      (pre ++ [Action.cmd c], pre.foldl fsAfterAction b, ExitStatus.exit (env.cmdExit c)) := by
  induction pre generalizing b with
  | nil => simp [execActions, hfail]
  | cons a rest ih =>
      have hrest : ∀ c2, Action.cmd c2 ∈ rest → env.cmdExit c2 = 0 :=
        fun c2 hc2 => hpre c2 (List.mem_cons_of_mem _ hc2)
      cases a with
      | cmd c2 =>
          have hc2 : env.cmdExit c2 = 0 := hpre c2 (List.mem_cons_self _ _)
          simp [execActions, hc2, ih hrest]
      | setEnvVar k v => simp [execActions, ih hrest]
      | makedirs p => simp [execActions, ih hrest]
      | rmtree p => simp [execActions, ih hrest]
      | copyFile s d => simp [execActions, ih hrest]
      | stepStart n => simp [execActions, ih hrest]

/-- A run of `copyFile` actions passes through without failing and without
touching the tracked directory. -/
theorem execActions_copies (env : BuildEnv) (d : String) (rest : List Action)
    (g : String → String) :
    ∀ (l : List String) (b : Bool),
    execActions env b ((l.map fun x => Action.copyFile (g x) d) ++ rest) =
      ((l.map fun x => Action.copyFile (g x) d) ++ (execActions env b rest).1,
       (execActions env b rest).2) := by
  intro l
  induction l with
  | nil => intro b; simp
  | cons x xs ih => intro b; simp [execActions, fsAfterAction, ih]

theorem stepStartsOf_append (l1 l2 : List Action) :
    stepStartsOf (l1 ++ l2) = stepStartsOf l1 ++ stepStartsOf l2 := by
  induction l1 with
  | nil => rfl
  | cons a rest ih => cases a <;> simp [stepStartsOf, ih]

theorem stepStartsOf_map_copy (g : String → String) (d : String) (l : List String) :
    stepStartsOf (l.map fun x => Action.copyFile (g x) d) = [] := by
  induction l with
  | nil => rfl
  | cons x xs ih => simp [stepStartsOf, ih]

/-- No registered build step emits a `stepStart` marker itself. -/
theorem stepStartsOf_stepActions (env : BuildEnv) (cuda : String) (n : String) :
    stepStartsOf (stepActions env cuda n) = [] := by
  unfold stepActions
  split
  · rfl
  · cases h : env.hopperRepoExists <;>
      simp [hopperActions, h, stepStartsOf_append, stepStartsOf_map_copy, stepStartsOf]
  · rfl
  · cases h : env.milesRepoExists <;> simp [int4Actions, h, stepStartsOf_append, stepStartsOf]
  · rfl
  · rfl

/-- The `stepStart` markers of the `build` action program are exactly the
selected registry keys, in registry order. -/
theorem stepStartsOf_buildActions (env : BuildEnv) (cuda : String) (arch : Arch)
    (only : List String) :
    stepStartsOf (buildActions env cuda arch only) =
      runStepsLoop (selectedOf only) STEPS_keys := by
  have h1 : stepStartsOf (setupEnvActions env cuda arch) = [] := by
    cases h : env.torchArchPreset <;> simp [setupEnvActions, h, stepStartsOf_append, stepStartsOf]
  have h2 : ∀ names : List String,
      stepStartsOf ((names.map
        (fun name => Action.stepStart name :: stepActions env cuda name)).flatten) = names := by
    intro names
    induction names with
    | nil => rfl
    | cons m ms ih =>
        simp [stepStartsOf, stepStartsOf_append, stepStartsOf_stepActions, ih]
  unfold buildActions
  rw [stepStartsOf_append, stepStartsOf_append, stepStartsOf_append]
  simp [h1, h2, stepStartsOf]

/-- The `install` loop under benign outcomes (every selected step either
succeeds or raises `FileNotFoundError`): every selected step is attempted
in registry order, exactly the `FileNotFoundError` ones are warned about,
and the loop completes normally. -/
theorem installLoop_benign (env : InstallEnv) (wd : String) (selected : List String) :
    ∀ keys : List String,
    (∀ n ∈ keys, runsStep selected n = true →
        (stepOk (installStep env wd n) || stepNotFound (installStep env wd n)) = true) →
    installLoop env wd selected keys =
      (keys.filter (runsStep selected),
       (keys.filter (runsStep selected)).filter (fun n => stepNotFound (installStep env wd n)),
       InstallStatus.ok) := by
  intro keys
  induction keys with
  | nil => intro h; rfl
  | cons n rest ih =>
      intro h
      have hrest := fun m hm => h m (List.mem_cons_of_mem _ hm)
      by_cases hr : runsStep selected n = true
      · have hn := h n (List.mem_cons_self _ _) hr
        cases hs : installStep env wd n with
        | ok u =>
            simp [installLoop, hr, hs, ih hrest, List.filter_cons, stepNotFound]
        | error e =>
            cases e with
            | fileNotFound =>
                simp [installLoop, hr, hs, ih hrest, List.filter_cons, stepNotFound]
            | runtimeError => simp [hs, stepOk, stepNotFound] at hn
            | calledProcess => simp [hs, stepOk, stepNotFound] at hn
            | typerExit c => simp [hs, stepOk, stepNotFound] at hn
      · simp [installLoop, hr, ih hrest, List.filter_cons]

/-- Full characterisation of the `test` loop: spawned subprocesses are the
selected keys in registry order, `passed`/`failed` partition them by exit
code, and `skipped` is the complement. -/
theorem testLoop_spec (env : TestEnv) (selected : List String) :
    ∀ keys : List String,
    (testLoop env selected keys).spawned = keys.filter (runsStep selected) ∧
    (testLoop env selected keys).passed =
      (keys.filter (runsStep selected)).filter (fun n => env.stepExit n == 0) ∧
    (testLoop env selected keys).failed =
      (keys.filter (runsStep selected)).filter (fun n => !(env.stepExit n == 0)) ∧
    (testLoop env selected keys).skipped = keys.filter (fun n => !(runsStep selected n)) := by
  intro keys
  induction keys with
  | nil => simp [testLoop]
  | cons n rest ih =>
      obtain ⟨h1, h2, h3, h4⟩ := ih
      by_cases hr : runsStep selected n = true
      · by_cases he : env.stepExit n = 0 <;>
          simp [testLoop, hr, he, h1, h2, h3, h4, List.filter_cons]
      · simp [testLoop, hr, h1, h2, h3, h4, List.filter_cons]

/-! ## Claim theorems -/

/-- Claim C4: in the build orchestrator, every external command that
returns a non-zero exit code aborts the entire run immediately with that
same exit code: the performed trace is exactly the actions before the
failing command followed by the failing command itself (each run once, so
no retry), nothing after it runs, and the process exit status carries the
command's exit code. -/
theorem build_cmd_failure_aborts (env : BuildEnv) (cuda : String) (arch : Arch)
    (only : List String) (pre post : List Action) (c : Cmd)
    (hcuda : cuda = "129" ∨ cuda = "130")
    (hdec : buildActions env cuda arch only = pre ++ Action.cmd c :: post)
    (hpre : ∀ c2, Action.cmd c2 ∈ pre → env.cmdExit c2 = 0)
    (hfail : env.cmdExit c ≠ 0) :
    (buildRun env cuda arch only).1 = pre ++ [Action.cmd c] ∧
    (buildRun env cuda arch only).2.2 = ExitStatus.exit (env.cmdExit c) := by
  have hb : buildRun env cuda arch only =
      execActions env env.hopperRepoExists (buildActions env cuda arch only) := by
    unfold buildRun
    rw [if_pos hcuda]
  rw [hb, hdec, execActions_failAt env pre post c hpre hfail]
  exact ⟨rfl, rfl⟩

/-- Witness for C4: with the flash-attn `pip wheel` command exiting 2, a
`build --cuda 129 --only flash-attn` run performs only the environment
setup, the output directory creation and that one command, and terminates
with exit code 2. -/
theorem build_cmd_failure_aborts_witness :
    (buildRun envFlashFail "129" Arch.x86 ["flash-attn"]).1 =
      [Action.setEnvVar "CUDA_VERSION" "12.9", Action.makedirs WHEEL_DIR,
       Action.stepStart "flash-attn", Action.cmd flashAttnWheelCmd] ∧
    (buildRun envFlashFail "129" Arch.x86 ["flash-attn"]).2.2 = ExitStatus.exit 2 := by
  have h := build_cmd_failure_aborts envFlashFail "129" Arch.x86 ["flash-attn"]
    [Action.setEnvVar "CUDA_VERSION" "12.9", Action.makedirs WHEEL_DIR,
     Action.stepStart "flash-attn"]
    [Action.cmd lsCmd] flashAttnWheelCmd (Or.inl rfl) (by decide)
    (by intro c2 hc2; simp at hc2) (by decide)
  exact ⟨h.1, h.2.trans (by decide)⟩

/-- Claim C8: `build` with a `--cuda` value outside the allowed set
rejects the run via the assertion before anything happens: the trace is
empty (no subprocess spawn, no environment write, no directory creation)
and the status is an `AssertionError`. -/
theorem build_invalid_cuda_rejected (env : BuildEnv) (cuda : String) (arch : Arch)
    (only : List String) (h1 : cuda ≠ "129") (h2 : cuda ≠ "130") :
    buildRun env cuda arch only = ([], env.hopperRepoExists, ExitStatus.assertionError) := by
  unfold buildRun
  rw [if_neg]
  rintro (h | h)
  · exact h1 h
  · exact h2 h

/-- Witness for C8: `build --cuda 131` performs no action at all and fails
the assertion. -/
theorem build_invalid_cuda_rejected_witness :
    buildRun envZero "131" Arch.x86 [] = ([], false, ExitStatus.assertionError) := by
  simpa using build_invalid_cuda_rejected envZero "131" Arch.x86 [] (by decide) (by decide)

/-- Claim C5: when the wheel directory holds no `.whl` file, `upload`
terminates with exit code 1 and spawns no `gh` command at all — in
particular neither the release deletion nor the release creation is
attempted. -/
theorem upload_empty_exits_one (env : UploadEnv) (cuda : String) (arch : Arch)
    (hcuda : cuda = "129" ∨ cuda = "130") (hw : env.wheels = []) :
    uploadRun env cuda arch = ([], ExitStatus.exit 1) := by
  rcases hcuda with h | h <;> subst h <;> simp [uploadRun, hw]

/-- Witness for C5: upload over an empty wheel directory. -/
theorem upload_empty_exits_one_witness :
    uploadRun uenvEmpty "129" Arch.x86 = ([], ExitStatus.exit 1) :=
  upload_empty_exits_one uenvEmpty "129" Arch.x86 (Or.inl rfl) rfl

/-- Claim C7: during `upload` with at least one wheel, the pre-existing
release deletion is best-effort — the run's outcome is the same for every
exit code of the delete subprocess — the delete command is spawned before
the create command, and the `gh release create` command decides the
outcome: its non-zero exit code is fatal and becomes the run's exit code,
while its success completes the run. -/
theorem upload_delete_swallowed_create_fatal (env : UploadEnv) (cuda : String) (arch : Arch)
    (hcuda : cuda = "129" ∨ cuda = "130") (hw : env.wheels ≠ []) :
    (∀ d : Nat, uploadRun ⟨env.wheels, env.cmdExit, d⟩ cuda arch = uploadRun env cuda arch) ∧
    (uploadRun env cuda arch).1 =
      [ghDeleteCmd (uploadTag cuda arch), uploadCreateCmd env cuda arch] ∧
    (∀ k : Nat, env.cmdExit (uploadCreateCmd env cuda arch) = k → k ≠ 0 →
        (uploadRun env cuda arch).2 = ExitStatus.exit k) ∧
    (env.cmdExit (uploadCreateCmd env cuda arch) = 0 →
        (uploadRun env cuda arch).2 = ExitStatus.ok) := by
  have hne : env.wheels.isEmpty = false := by
    simpa [List.isEmpty_iff] using hw
  have key : uploadRun env cuda arch =
      (if env.cmdExit (uploadCreateCmd env cuda arch) = 0 then
         ([ghDeleteCmd (uploadTag cuda arch), uploadCreateCmd env cuda arch], ExitStatus.ok)
       else
         ([ghDeleteCmd (uploadTag cuda arch), uploadCreateCmd env cuda arch],
          ExitStatus.exit (env.cmdExit (uploadCreateCmd env cuda arch)))) := by
    rcases hcuda with h | h <;> subst h <;> simp [uploadRun, hne, uploadCreateCmd]
  refine ⟨fun d => rfl, ?_, ?_, ?_⟩
  · rw [key]
    by_cases hc : env.cmdExit (uploadCreateCmd env cuda arch) = 0 <;> simp [hc]
  · intro k hk hk0
    rw [key, hk]
    simp [hk0]
  · intro hk
    rw [key, hk]
    simp

/-- Witness for C7: one wheel, `gh release create` exiting 3, delete exit
code irrelevant: the run spawns delete then create and exits 3. -/
theorem upload_delete_swallowed_create_fatal_witness :
    (uploadRun uenvCreateFail "129" Arch.x86).2 = ExitStatus.exit 3 ∧
    uploadRun ⟨uenvCreateFail.wheels, uenvCreateFail.cmdExit, 0⟩ "129" Arch.x86 =
      uploadRun uenvCreateFail "129" Arch.x86 := by
  have h := upload_delete_swallowed_create_fatal uenvCreateFail "129" Arch.x86
    (Or.inl rfl) (by decide)
  exact ⟨h.2.2.1 3 (by decide) (by decide), h.1 0⟩

/-- Counterexample to claim C1 as stated: `build --cuda 129 --only APEX`
(every command succeeding) executes the step `apex`, even though the name
`apex` does not appear in the filter and the filter entry `APEX` matches
no registry key — so neither "exactly the registered steps whose names
appear in the filter execute" nor "filter names matching no registry key
cause no step to run" holds for this filter. -/
theorem only_filter_case_counterexample :
    stepStartsOf (buildRun envZero "129" Arch.x86 ["APEX"]).1 = ["apex"] ∧
    "APEX" ∉ STEPS_keys ∧
    "apex" ∉ (["APEX"] : List String) ∧
    (buildRun envZero "129" Arch.x86 ["APEX"]).2.2 = ExitStatus.ok := by
  refine ⟨by decide, by decide, by decide, by decide⟩

/-- Claim C1 as amended: the `--only` filter is lowercased before
matching. For every filter, the steps that execute during `build` (with
all commands succeeding) and the packages attempted during `install`
(with every selected step succeeding or warning) are exactly the
registered steps whose names appear in the lowercased filter, in the
registry's fixed order; lowercased filter entries matching no registry key
are silently ignored, and an empty filter selects every registered step. -/
theorem only_filter_selects_lowercased (env : BuildEnv) (arch : Arch) (cuda : String)
    (only : List String) (ienv : InstallEnv) (wd : String)
    (hcuda : cuda = "129" ∨ cuda = "130")
    (hok : ∀ c : Cmd, env.cmdExit c = 0)
    (hbenign : ∀ n ∈ INSTALL_STEPS_keys, runsStep (selectedOf only) n = true →
        (stepOk (installStep ienv wd n) || stepNotFound (installStep ienv wd n)) = true) :
    stepStartsOf (buildRun env cuda arch only).1 =
      STEPS_keys.filter (runsStep (only.map strLower)) ∧
    (installRun ienv wd only).1 = INSTALL_STEPS_keys.filter (runsStep (only.map strLower)) ∧
    (only = [] → stepStartsOf (buildRun env cuda arch only).1 = STEPS_keys) ∧
    (∀ n, n ∈ stepStartsOf (buildRun env cuda arch only).1 ↔
        n ∈ STEPS_keys ∧ (only = [] ∨ n ∈ only.map strLower)) := by
  have hb : buildRun env cuda arch only =
      execActions env env.hopperRepoExists (buildActions env cuda arch only) := by
    unfold buildRun
    rw [if_pos hcuda]
  have htrace : (buildRun env cuda arch only).1 = buildActions env cuda arch only := by
    rw [hb, execActions_allOk env _ (fun c _ => hok c)]
  have hstarts : stepStartsOf (buildRun env cuda arch only).1 =
      STEPS_keys.filter (runsStep (only.map strLower)) := by
    rw [htrace, stepStartsOf_buildActions, runStepsLoop_eq_filter]
    rfl
  refine ⟨hstarts, ?_, ?_, ?_⟩
  · unfold installRun
    rw [installLoop_benign ienv wd (selectedOf only) INSTALL_STEPS_keys hbenign]
    rfl
  · intro h0
    subst h0
    rw [hstarts]
    simp [runsStep]
  · intro n
    rw [hstarts]
    simp only [List.mem_filter, runsStep, Bool.or_eq_true, List.isEmpty_iff,
      List.map_eq_nil_iff]
    constructor
    · rintro ⟨h1, h2 | h2⟩
      · exact ⟨h1, Or.inl h2⟩
      · exact ⟨h1, Or.inr (by simpa using h2)⟩
    · rintro ⟨h1, h2 | h2⟩
      · exact ⟨h1, Or.inl h2⟩
      · exact ⟨h1, Or.inr (by simpa using h2)⟩

/-- Witness for the amended C1: `--only apex` under an all-succeeding
world builds exactly the `apex` step and installs exactly the `apex`
package. -/
theorem only_filter_selects_lowercased_witness :
    stepStartsOf (buildRun envZero "129" Arch.x86 ["apex"]).1 = ["apex"] ∧
    (installRun ienvAllOk "/tmp/wheels" ["apex"]).1 = ["apex"] := by
  have h := only_filter_selects_lowercased envZero Arch.x86 "129" ["apex"] ienvAllOk
    "/tmp/wheels" (Or.inl rfl) (fun c => rfl) (by decide)
  exact ⟨h.1.trans (by decide), h.2.1.trans (by decide)⟩

/-- Counterexample to claim C6 as stated: when `git checkout` exits 1
inside the `flash-attn-hopper` step (the clone having succeeded), the step
terminates by a failing external command and the clone directory
`/tmp/flash-attention` still exists afterwards — the cleanup does not run
on failure paths. -/
theorem hopper_cleanup_missing_on_failure :
    (hopperStepRun envHopperFail).1 =
      [Action.cmd hopperCloneCmd, Action.cmd hopperCheckoutCmd] ∧
    (hopperStepRun envHopperFail).2.1 = true ∧
    (hopperStepRun envHopperFail).2.2 = ExitStatus.exit 1 := by
  refine ⟨by decide, by decide, by decide⟩

/-- A successful `git clone` marks the tracked directory as existing. -/
theorem fsAfter_clone (b : Bool) : fsAfterAction b (Action.cmd hopperCloneCmd) = true := by
  simp [fsAfterAction]

theorem fsAfter_checkout (b : Bool) : fsAfterAction b (Action.cmd hopperCheckoutCmd) = b := by
  simp only [fsAfterAction]
  rw [if_neg (by decide)]

theorem fsAfter_submodule (b : Bool) : fsAfterAction b (Action.cmd hopperSubmoduleCmd) = b := by
  simp only [fsAfterAction]
  rw [if_neg (by decide)]

theorem fsAfter_bdist (b : Bool) : fsAfterAction b (Action.cmd hopperBdistCmd) = b := by
  simp only [fsAfterAction]
  rw [if_neg (by decide)]

theorem fsAfter_rm_hopper (b : Bool) :
    fsAfterAction b (Action.rmtree hopperRepoDir) = false := by
  simp [fsAfterAction]

/-- Claim C6 as amended: the `flash-attn-hopper` step deletes its cloned
repository tree on the success path only. If the step runs to completion
the clone directory no longer exists; if any external command fails after
a successful clone, the directory still exists when the step terminates. -/
theorem hopper_cleanup_success_only (env : BuildEnv)
    (hclone : env.cmdExit hopperCloneCmd = 0) :
    ((hopperStepRun env).2.2 = ExitStatus.ok → (hopperStepRun env).2.1 = false) ∧
    ((hopperStepRun env).2.2 ≠ ExitStatus.ok → (hopperStepRun env).2.1 = true) := by
  have key : (hopperStepRun env).2.1 = false ∧ (hopperStepRun env).2.2 = ExitStatus.ok ∨
      (hopperStepRun env).2.1 = true ∧ (hopperStepRun env).2.2 ≠ ExitStatus.ok := by
    unfold hopperStepRun hopperActions
    by_cases h2 : env.cmdExit hopperCheckoutCmd = 0
    · by_cases h3 : env.cmdExit hopperSubmoduleCmd = 0
      · by_cases h4 : env.cmdExit hopperBdistCmd = 0
        · cases h0 : env.hopperRepoExists <;>
            simp [h0, execActions, hclone, h2, h3, h4, fsAfter_clone, fsAfter_checkout,
              fsAfter_submodule, fsAfter_bdist, fsAfter_rm_hopper, execActions_copies]
        · cases h0 : env.hopperRepoExists <;>
            simp [h0, execActions, hclone, h2, h3, h4, fsAfter_clone, fsAfter_checkout,
              fsAfter_submodule, fsAfter_bdist, fsAfter_rm_hopper]
      · cases h0 : env.hopperRepoExists <;>
          simp [h0, execActions, hclone, h2, h3, fsAfter_clone, fsAfter_checkout,
            fsAfter_submodule, fsAfter_rm_hopper]
    · cases h0 : env.hopperRepoExists <;>
        simp [h0, execActions, hclone, h2, fsAfter_clone, fsAfter_checkout,
          fsAfter_rm_hopper]
  rcases key with ⟨ha, hb⟩ | ⟨ha, hb⟩
  · exact ⟨fun _ => ha, fun h => absurd hb h⟩
  · exact ⟨fun h => absurd h hb, fun _ => ha⟩

/-- Witness for the amended C6: in an all-succeeding world the step
completes and the clone directory is gone. -/
theorem hopper_cleanup_success_only_witness :
    (hopperStepRun envZero).2.1 = false :=
  (hopper_cleanup_success_only envZero rfl).1 (by decide)

/-- Claim C2: every selected test spawns exactly one subprocess, in
registry order and independently of every exit code (the spawned list is
determined by the filter alone, so a failing test never prevents a later
one from running); `passed`/`failed` classify the spawned tests by exit
code; and the command's exit code is non-zero exactly when at least one
selected test failed (and is then 1). -/
theorem test_failures_isolated_and_exit (env : TestEnv) (only : List String) :
    (testRun env only).1.spawned = TEST_STEPS_keys.filter (runsStep (selectedOf only)) ∧
    (testRun env only).1.passed =
      (TEST_STEPS_keys.filter (runsStep (selectedOf only))).filter
        (fun n => env.stepExit n == 0) ∧
    (testRun env only).1.failed =
      (TEST_STEPS_keys.filter (runsStep (selectedOf only))).filter
        (fun n => !(env.stepExit n == 0)) ∧
    ((testRun env only).2 ≠ 0 ↔ (testRun env only).1.failed ≠ []) ∧
    ((testRun env only).2 ≠ 0 ↔
      ∃ n ∈ TEST_STEPS_keys.filter (runsStep (selectedOf only)), env.stepExit n ≠ 0) ∧
    ((testRun env only).2 = 0 ∨ (testRun env only).2 = 1) := by
  obtain ⟨h1, h2, h3, h4⟩ := testLoop_spec env (selectedOf only) TEST_STEPS_keys
  have hexit : (testRun env only).2 =
      if (testLoop env (selectedOf only) TEST_STEPS_keys).failed.isEmpty then 0 else 1 := rfl
  have hfailed : (testRun env only).1.failed =
      (TEST_STEPS_keys.filter (runsStep (selectedOf only))).filter
        (fun n => !(env.stepExit n == 0)) := h3
  have hiff : (testRun env only).2 ≠ 0 ↔ (testRun env only).1.failed ≠ [] := by
    rw [hexit]
    by_cases hF : (testLoop env (selectedOf only) TEST_STEPS_keys).failed.isEmpty
    · simp [hF]
      exact List.isEmpty_iff.mp hF
    · simp [hF]
      intro hnil
      exact hF (List.isEmpty_iff.mpr hnil)
  refine ⟨h1, h2, h3, hiff, ?_, ?_⟩
  · rw [hiff, hfailed]
    constructor
    · intro hne
      obtain ⟨n, hn⟩ := List.exists_mem_of_ne_nil _ hne
      rw [List.mem_filter] at hn
      refine ⟨n, hn.1, ?_⟩
      simpa using hn.2
    · rintro ⟨n, hn, hne⟩
      intro hnil
      have : n ∈ ((TEST_STEPS_keys.filter (runsStep (selectedOf only))).filter
          (fun n => !(env.stepExit n == 0))) := by
        rw [List.mem_filter]
        exact ⟨hn, by simpa using hne⟩
      rw [hnil] at this
      exact absurd this (List.not_mem_nil n)
  · rw [hexit]
    by_cases hF : (testLoop env (selectedOf only) TEST_STEPS_keys).failed.isEmpty <;>
      simp [hF]

/-- Claim C3: a zero-match glob makes `_find_wheel` raise
`FileNotFoundError`; during `install` this is caught and recorded as a
warning while every remaining selected package is still attempted, and
when every selected package either installs successfully or is skipped
this way the command completes with exit code 0. -/
theorem install_not_found_warns_and_continues (env : InstallEnv) (wd : String)
    (only : List String)
    (hbenign : ∀ n ∈ INSTALL_STEPS_keys, runsStep (selectedOf only) n = true →
        (stepOk (installStep env wd n) || stepNotFound (installStep env wd n)) = true) :
    (∀ pat : String, env.glob (joinPath wd pat) = [] →
        findWheel env wd pat = Except.error PyError.fileNotFound) ∧
    (installRun env wd only).1 = INSTALL_STEPS_keys.filter (runsStep (selectedOf only)) ∧
    (installRun env wd only).2.1 =
      (INSTALL_STEPS_keys.filter (runsStep (selectedOf only))).filter
        (fun n => stepNotFound (installStep env wd n)) ∧
    (installRun env wd only).2.2 = InstallStatus.ok ∧
    installExitCode (installRun env wd only).2.2 = 0 := by
  have h := installLoop_benign env wd (selectedOf only) INSTALL_STEPS_keys hbenign
  refine ⟨?_, ?_, ?_, ?_, ?_⟩
  · intro pat hp
    unfold findWheel
    rw [hp]
  · unfold installRun
    rw [h]
  · unfold installRun
    rw [h]
  · unfold installRun
    rw [h]
  · unfold installRun
    rw [h]
    rfl

/-- Witness for C3: only the apex wheel exists; `install --only flash-attn
--only apex` attempts both packages, warns about flash-attn, and exits 0. -/
theorem install_not_found_warns_and_continues_witness :
    (installRun ienvWarn "/tmp/wheels" ["flash-attn", "apex"]).1 = ["flash-attn", "apex"] ∧
    (installRun ienvWarn "/tmp/wheels" ["flash-attn", "apex"]).2.1 = ["flash-attn"] ∧
    (installRun ienvWarn "/tmp/wheels" ["flash-attn", "apex"]).2.2 = InstallStatus.ok := by
  have h := install_not_found_warns_and_continues ienvWarn "/tmp/wheels"
    ["flash-attn", "apex"] (by decide)
  exact ⟨h.2.1.trans (by decide), h.2.2.1.trans (by decide), h.2.2.2.1⟩

/-- Claim C9: with more than one wheel matching the flash-attn glob,
`_find_wheel` raises the "multiple candidates" `RuntimeError`; `install`
(here with no `--only` filter, so every package is selected) does not
catch it — only `FileNotFoundError` is caught — so the run aborts after
the first package: no remaining package is attempted and the interpreter
exits 1. -/
theorem install_multiple_matches_aborts (env : InstallEnv) (wd : String) (w1 w2 : String)
    (ws : List String)
    (hglob : env.glob (joinPath wd "flash_attn-*.whl") = w1 :: w2 :: ws) :
    findWheel env wd "flash_attn-*.whl" = Except.error PyError.runtimeError ∧
    installRun env wd [] = (["flash-attn"], [], InstallStatus.uncaught PyError.runtimeError) ∧
    installExitCode (installRun env wd []).2.2 = 1 := by
  have hf : findWheel env wd "flash_attn-*.whl" = Except.error PyError.runtimeError := by
    unfold findWheel
    rw [hglob]
  have hstep : installStep env wd "flash-attn" = Except.error PyError.runtimeError := by
    show installFlashAttn env wd = _
    unfold installFlashAttn
    rw [hf]
    rfl
  have hrun : installRun env wd [] =
      (["flash-attn"], [], InstallStatus.uncaught PyError.runtimeError) := by
    show installLoop env wd (selectedOf []) INSTALL_STEPS_keys = _
    rw [show INSTALL_STEPS_keys =
      "flash-attn" :: ["flash-attn-hopper", "apex", "int4_qat", "te"] from rfl]
    rw [installLoop]
    simp [runsStep, selectedOf, hstep]
  refine ⟨hf, hrun, ?_⟩
  rw [hrun]
  rfl

/-- Witness for C9: two flash-attn wheels in the directory abort the whole
install run at the first package. -/
theorem install_multiple_matches_aborts_witness :
    installRun ienvMulti "/tmp/wheels" [] =
      (["flash-attn"], [], InstallStatus.uncaught PyError.runtimeError) :=
  (install_multiple_matches_aborts ienvMulti "/tmp/wheels"
    "/tmp/wheels/flash_attn-2.7.4.post1-cp310.whl" "/tmp/wheels/flash_attn-2.7.5-cp310.whl"
    [] (by decide)).2.1

/-- Claim C10: the test registry has no `te` entry (its keys are exactly
flash-attn, flash-attn-hopper, apex and int4_qat), so `test --only te`
spawns no subprocess, reports 0 passed, 0 failed and 4 skipped, and exits
0 — although `te` is an `INSTALL_STEPS` key and is listed in the
`STEP_NAMES` string used by the `--only` help text. -/
theorem test_te_not_registered (env : TestEnv) :
    "te" ∉ TEST_STEPS_keys ∧
    TEST_STEPS_keys = ["flash-attn", "flash-attn-hopper", "apex", "int4_qat"] ∧
    "te" ∈ INSTALL_STEPS_keys ∧
    (∃ a b : String, TW_STEP_NAMES = a ++ "te" ++ b) ∧
    (testRun env ["te"]).1.spawned = [] ∧
    (testRun env ["te"]).1.passed = [] ∧
    (testRun env ["te"]).1.failed = [] ∧
    (testRun env ["te"]).1.skipped = TEST_STEPS_keys ∧
    TEST_STEPS_keys.length = 4 ∧
    (testRun env ["te"]).2 = 0 :=
  ⟨by decide, rfl, by decide,
   ⟨"flash-attn, flash-attn-hopper, apex, int4_qat, ", "", by decide⟩,
   rfl, rfl, rfl, rfl, rfl, rfl⟩

end MilesWheels
